import Mathlib

/-!
Verification of the CB2 Bot event-ingestion and command-dispatch pipeline.

The definitions below are a shallow embedding of `helpers.py` and `main.py`:
pure Python functions become Lean functions, the mutable state threaded
through the webhook handler and chat dispatcher (seen-id list, cooldown
dictionary, sqlite-backed command table) becomes explicit state passing, and
Python operations that can raise (`s[i]`, `int(...)`, `json.loads`,
`None.encode()`) return `Option`, with `none` marking a raised exception.
The HMAC-SHA256 digest used by `verify_signature` and the JSON parser used by
`do_POST` are external library calls; they are abstracted as explicit
function parameters (`H`, `parse`) so that every theorem quantifies over the
digest/parser, with the properties the source relies on stated as hypotheses.
-/

namespace CB2

/-- Initial-segment check on char lists, used to model `str.removeprefix`:
`listIsPre p l` is true when `p` is an initial segment of `l`. -/
def listIsPre : List Char → List Char → Bool
  | [], _ => true
  | _ :: _, [] => false
  | a :: as, b :: bs => a == b && listIsPre as bs

/-- Substring test on char lists; models the Python `needle in haystack`
operator on `str` (which is substring containment, not set membership). -/
def isSubOf (needle : List Char) : List Char → Bool
  | [] => needle.isEmpty
  | h :: t => listIsPre needle (h :: t) || isSubOf needle t

/-- Python `needle in hay` for strings. -/
def pyInStr (needle hay : String) : Bool :=
  isSubOf needle.toList hay.toList

/-- Python `s.removeprefix(p)`: drop `p` from the front of `s` when it is an
initial segment, otherwise return `s` unchanged. -/
def dropPfx (s p : String) : String :=
  if listIsPre p.toList s.toList then String.mk (s.toList.drop p.toList.length) else s

/-- Byte sequence of a string, modelling Python `str.encode()`; characters
are mapped injectively to their code points. -/
def strBytes (s : String) : List Nat :=
  s.toList.map Char.toNat

/-- Split a char list at every occurrence of the separator character;
`splitChars sep l` has one (possibly empty) piece per gap, so that mapping
`String.mk` over it models Python `s.split(sep)` with an explicit one-char
separator (in particular `"".split(' ') == ['']`). -/
def splitChars (sep : Char) : List Char → List (List Char)
  | [] => [[]]
  | c :: t =>
    let r := splitChars sep t
    if c = sep then [] :: r
    else
      match r with
      | [] => [[c]]
      | h :: hs => (c :: h) :: hs

/-- Python `s.split(' ')` (explicit single-space separator, no maxsplit). -/
def splitSp (s : String) : List String :=
  (splitChars ' ' s.toList).map String.mk

/-- Python `' '.join(l)`. -/
def joinSp : List String → String
  | [] => ""
  | [x] => x
  | x :: y :: t => x ++ " " ++ joinSp (y :: t)

/-- Split a char list at the first occurrence of the (non-empty) separator
sequence, returning the parts before and after it, or `none` when the
separator does not occur. -/
def breakOn (sep : List Char) : List Char → Option (List Char × List Char)
  | [] => none
  | c :: t =>
    if listIsPre sep (c :: t) then some ([], (c :: t).drop sep.length)
    else
      match breakOn sep t with
      | none => none
      | some (pre, post) => some (c :: pre, post)

/-- Python `s.split(sep, 1)`: split at the first occurrence of `sep` only. -/
def pySplit1 (s sep : String) : List String :=
  match breakOn sep.toList s.toList with
  | none => [s]
  | some (pre, post) => [String.mk pre, String.mk post]

/-- Python `s[n:]` on strings (by characters). -/
def strDrop (s : String) (n : Nat) : String :=
  String.mk (s.toList.drop n)

/-- ASCII lower-casing of one character, as Python `str.lower` acts on the
ASCII command names this program handles. -/
def lowerChar (c : Char) : Char :=
  if 'A' ≤ c ∧ c ≤ 'Z' then Char.ofNat (c.toNat + 32) else c

/-- Python `s.lower()`. -/
def pyLower (s : String) : String :=
  String.mk (s.toList.map lowerChar)

/-- Python whitespace test for `str.strip()`. -/
def isSpaceChar (c : Char) : Bool :=
  c = ' ' ∨ c = '\t' ∨ c = '\n' ∨ c = '\r'

/-- Drop leading whitespace characters. -/
def dropLeadWs : List Char → List Char
  | [] => []
  | c :: t => if isSpaceChar c then dropLeadWs t else c :: t

/-- Python `s.strip()`. -/
def pyStrip (s : String) : String :=
  String.mk ((dropLeadWs (dropLeadWs s.toList).reverse).reverse)

/-- Python `s[i]` character indexing; `none` models the raised `IndexError`. -/
def pyIndex (s : String) (i : Nat) : Option Char :=
  s.toList.get? i

/-- From `helpers.py`, `verify_signature(secret, es_id, es_timestamp,
es_body_bytes, es_sig)`.  The message is the byte concatenation of the id,
the timestamp and the raw body; the digest
`hmac.new(key, msg, sha256).hexdigest()` is abstracted as the function
parameter `H key msg`; the presented signature is compared for exact string
equality after `removeprefix('sha256=')`. -/
def verify_signature (H : List Nat → List Nat → String)
    (secret es_id es_timestamp : String) (es_body_bytes : List Nat)
    (es_sig : String) : Bool :=
  H (strBytes secret) (strBytes es_id ++ strBytes es_timestamp ++ es_body_bytes)
    == dropPfx es_sig "sha256="

/-- From `main.py`: a `CooldownHandler` object; `command` and `cooldown` are
set by `__init__` and `last_used` is the `time()` of construction or of the
last allowed fire.  Time is modelled as a natural number of seconds. -/
structure CooldownHandler where
  command : String
  cooldown : Nat
  last_used : Nat
deriving DecidableEq

/-- The `cooldown_handlers` dictionary: an insertion-ordered association
list from command name to handler. -/
abbrev CDMap := List (String × CooldownHandler)

/-- Python dictionary lookup `cooldown_handlers[command]`. -/
def mapLookup : CDMap → String → Option CooldownHandler
  | [], _ => none
  | (k, v) :: t, key => if k = key then some v else mapLookup t key

/-- Python dictionary assignment `cooldown_handlers[command] = v`:
replace the binding in place, or append a fresh one. -/
def mapSet : CDMap → String → CooldownHandler → CDMap
  | [], key, v => [(key, v)]
  | (k, w) :: t, key, v =>
    if k = key then (k, v) :: t else (k, w) :: mapSet t key v

/-- From `main.py`, `CooldownHandler.is_useable`: returns `True` and updates
`last_used` when `time() > self.cooldown + self.last_used`, otherwise
returns `False` leaving the object unchanged. -/
def CooldownHandler.is_useable (st : CooldownHandler) (now : Nat) :
    Bool × CooldownHandler :=
  if now > st.cooldown + st.last_used then (true, { st with last_used := now })
  else (false, st)

/-- The cooldown consultation performed by `command_handler` for a non-mod
command: look the command up in `cooldown_handlers`; if a handler exists,
call `is_useable` (storing its mutation back); otherwise create
`CooldownHandler(command, COOLDOWN)` at the current time and allow the
first use. -/
def tryFire (cooldown : Nat) (cds : CDMap) (command : String) (now : Nat) :
    Bool × CDMap :=
  match mapLookup cds command with
  | some h =>
    let r := h.is_useable now
    (r.1, mapSet cds command r.2)
  | none => (true, mapSet cds command ⟨command, cooldown, now⟩)

/-- A row of the sqlite `commands` table: `(command, content, mod)`. -/
structure Cmd where
  name : String
  content : String
  mod : Nat
deriving DecidableEq

/-- `SELECT ... FROM commands WHERE command = :command` with `fetchone()`:
first row whose key is exactly (case-sensitively) equal, as under sqlite's
default BINARY collation. -/
def findCmd : List Cmd → String → Option Cmd
  | [], _ => none
  | c :: t, n => if c.name = n then some c else findCmd t n

/-- From `main.py`, `command_handler(command, user, cursor)`, returning the
template to send (or `None`) together with the updated cooldown dictionary.
The mod test is Python `user in MODS` where `MODS` is a string, i.e. a
substring test. -/
def command_handler (cooldown : Nat) (store : List Cmd) (cds : CDMap)
    (command user mods : String) (now : Nat) : Option String × CDMap :=
  match findCmd store command with
  | none => (none, cds)
  | some row =>
    if pyInStr user mods = true then (some row.content, cds)
    else if row.mod = 0 then
      let r := tryFire cooldown cds command now
      (if r.1 then some row.content else none, r.2)
    else (none, cds)

/-- The argument parsing of `add_command`: `splitmsg = message.split(' ')`;
if `splitmsg[1].lower() == 'mod'` the name is `splitmsg[2].lower()` and the
content joins `splitmsg[3:]`, otherwise the name is `splitmsg[1].lower()`
and the content joins `splitmsg[2:]`.  `none` models the `IndexError`
raised when the indexed token is missing. -/
def addcomParse (message : String) : Option (String × String × Nat) :=
  let splitmsg := splitSp message
  match splitmsg.get? 1 with
  | none => none
  | some w =>
    if pyLower w = "mod" then
      match splitmsg.get? 2 with
      | none => none
      | some c => some (pyLower c, joinSp (splitmsg.drop 3), 1)
    else
      some (pyLower w, joinSp (splitmsg.drop 2), 0)

/-- From `main.py`, `add_command(message, cursor)`: parse the message, check
for an existing row, and `INSERT` only when the name is absent, returning
the new table and the function's boolean result. -/
def add_command (message : String) (store : List Cmd) :
    Option (List Cmd × Bool) :=
  match addcomParse message with
  | none => none
  | some (command, content, mod) =>
    match findCmd store command with
    | some _ => some (store, false)
    | none => some (store ++ [⟨command, content, mod⟩], true)

/-- From `main.py`, `delete_command(message, cursor)`: `DELETE ... WHERE
command = splitmsg[1]` — note the raw, un-lowercased token.  `none` models
the `IndexError` when the message has no second token. -/
def delete_command (message : String) (store : List Cmd) :
    Option (List Cmd) :=
  match (splitSp message).get? 1 with
  | none => none
  | some command => some (store.filter (fun c => ! (c.name == command)))

/-- The observable action taken by one run of the `command` dispatcher. -/
inductive Action where
  | ignored
  | storedReply (msg : String)
  | shoutout (target : String)
  | addcomOk
  | addcomFail
  | delcomDone
  | esfollow
  | essub
  | nukeEventsubs
  | disconnect
  | auth
deriving DecidableEq

/-- Result of one run of the `command` dispatcher: the action taken plus the
updated command table and cooldown dictionary. -/
structure DispatchResult where
  action : Action
  store : List Cmd
  cds : CDMap
deriving DecidableEq

/-- The built-in `elif` chain of `command` in `main.py`; every branch is
guarded by Python `name in MODS` (substring containment).  `none` models an
exception escaping a branch (e.g. `message.split(' ')[1]` in the shoutout
branch). -/
def builtins (store : List Cmd) (cds : CDMap) (message cmd name mods : String) :
    Option DispatchResult :=
  if cmd = "so" ∧ pyInStr name mods = true then
    match (splitSp message).get? 1 with
    | none => none
    | some t => some ⟨.shoutout t, store, cds⟩
  else if cmd = "addcom" ∧ pyInStr name mods = true then
    match add_command message store with
    | none => none
    | some (st', true) => some ⟨.addcomOk, st', cds⟩
    | some (st', false) => some ⟨.addcomFail, st', cds⟩
  else if cmd = "delcom" ∧ pyInStr name mods = true then
    match delete_command message store with
    | none => none
    | some st' => some ⟨.delcomDone, st', cds⟩
  else if cmd = "esfollow" ∧ pyInStr name mods = true then
    some ⟨.esfollow, store, cds⟩
  else if cmd = "essub" ∧ pyInStr name mods = true then
    some ⟨.essub, store, cds⟩
  else if cmd = "nukeeventsubs" ∧ pyInStr name mods = true then
    some ⟨.nukeEventsubs, store, cds⟩
  else if cmd = "disconnect" ∧ pyInStr name mods = true then
    some ⟨.disconnect, store, cds⟩
  else if cmd = "auth" ∧ pyInStr name mods = true then
    some ⟨.auth, store, cds⟩
  else
    some ⟨.ignored, store, cds⟩

/-- The name `command` dispatches on: `message[1:].split(' ')[0]` — the raw
first whitespace-delimited token after the `!` marker, with no case folding. -/
def dispatchToken (message0 : String) : String :=
  (splitSp (strDrop message0 1)).headD ""

/-- From `main.py`, the `command(message, name, cursor, dbconnection)`
dispatcher.  The walrus test `if dbcmd := command_handler(...)` falls
through to the built-in chain whenever the stored-command path yields a
falsy value (`None` or the empty string). -/
def command (cooldown : Nat) (store : List Cmd) (cds : CDMap)
    (message0 name mods : String) (now : Nat) : Option DispatchResult :=
  let message := strDrop message0 1
  let cmd := dispatchToken message0
  let r := command_handler cooldown store cds cmd name mods now
  match r with
  | (some s, cds') =>
    if s = "" then builtins store cds' message cmd name mods
    else some ⟨.storedReply s, store, cds'⟩
  | (none, cds') => builtins store cds' message cmd name mods

/-- Remove every row with the given name from the command table (the store
"as if the command did not exist"). -/
def dropNamed (store : List Cmd) (n : String) : List Cmd :=
  store.filter (fun c => ! (c.name == n))

/-- The greeting-word list from `main.py`. -/
def GREETINGS : List String :=
  ["hi", "hello", "heyo", "yo", "hey", "salut", "suh"]

/-- What one `PRIVMSG` iteration of the read loop did. -/
inductive LineAct where
  | cmdDispatch (r : DispatchResult)
  | greet (name : String)
  | noop
deriving DecidableEq

/-- The per-`PRIVMSG` body of the read loop in `main()`: test
`message[0] == '!'` (Python indexing, which raises `IndexError` on the
empty string — modelled by `none`), dispatch commands, otherwise greet a
sender whose message contains a greeting word and who has not been seen.
Returns the action and the updated `seen_users` list. -/
def handle_privmsg (cooldown : Nat) (store : List Cmd) (cds : CDMap)
    (message name mods : String) (now : Nat) (seenUsers : List String) :
    Option (LineAct × List String) :=
  match pyIndex message 0 with
  | none => none
  | some c =>
    if c = '!' then
      match command cooldown store cds message name mods now with
      | none => none
      | some r => some (.cmdDispatch r, seenUsers)
    else if GREETINGS.any (fun w => pyInStr w (pyLower message)) then
      if seenUsers.contains name then some (.noop, seenUsers)
      else some (.greet name, seenUsers ++ [name])
    else some (.noop, seenUsers)

/-- The message-text extraction of the read loop:
`ircmsg.split('PRIVMSG', 1)[1].split(':', 1)[1].strip()`; `none` models the
`IndexError` when a separator is absent. -/
def extract_text (ircmsg : String) : Option String :=
  match (pySplit1 ircmsg "PRIVMSG").get? 1 with
  | none => none
  | some rest =>
    match (pySplit1 rest ":").get? 1 with
    | none => none
    | some m => some (pyStrip m)

/-- The `event` object fields that `do_POST` reads from the JSON payload;
`none` marks an absent key (access raises `KeyError`). -/
structure EventObj where
  user_name : Option String
  tier : Option Nat
  bits : Option Nat
  is_anonymous : Option Bool
deriving DecidableEq

/-- The JSON payload fields that `do_POST` reads; `none` marks an absent
key. -/
structure Payload where
  challenge : Option String
  event : Option EventObj
deriving DecidableEq

/-- An inbound POST request: the headers `do_POST` reads (each `none` when
absent, as `self.headers[...]` yields `None`) and the raw body bytes. -/
structure Req where
  contentLength : Option String
  msgId : Option String
  msgTimestamp : Option String
  msgSignature : Option String
  msgType : Option String
  subType : Option String
  body : List Nat
deriving DecidableEq

/-- The HTTP response `do_POST` sends, when it sends one. -/
inductive HttpOut where
  | ok (body : Option String)
  | okBody (clen : Nat) (body : String)
  | forbidden
deriving DecidableEq

/-- Outcome of one `do_POST` call: the response sent (if any), the chat
messages sent, the updated `seen_message_ids` list, and whether an
exception escaped the handler. -/
structure PostOut where
  resp : Option HttpOut
  chat : List String
  seen : List String
  raised : Bool
deriving DecidableEq

/-- Python `int(s)` for the `Content-Length` header; `none` models the
raised `ValueError`. -/
def pyInt (s : String) : Option Nat :=
  if s.toList.isEmpty then none
  else
    s.toList.foldl
      (fun acc c =>
        match acc with
        | none => none
        | some a => if '0' ≤ c ∧ c ≤ '9' then some (a * 10 + (c.toNat - 48)) else none)
      (some 0)

/-- Python truthiness of an optional header string: `None` and `''` are
falsy. -/
def truthyS : Option String → Bool
  | none => false
  | some s => ! (s == "")

/-- From `main.py`, `RequestHandler.do_POST`, with the state
(`seen_message_ids`, chat side effects) passed explicitly.  `H` abstracts
the HMAC-SHA256 hex digest, `parse` abstracts `json.loads` on the body
(`none` = raises), and `dec` abstracts `bytes.decode('utf-8')` success for
the logging call.  A `PostOut` with `raised := true` (and the responses
sent so far) models an exception escaping the handler method. -/
def do_POST (H : List Nat → List Nat → String)
    (parse : List Nat → Option Payload) (dec : List Nat → Bool)
    (secret : String) (seen : List String) (req : Req) : PostOut :=
  match req.contentLength with
  | none => ⟨none, [], seen, true⟩
  | some cl =>
    match pyInt cl with
    | none => ⟨none, [], seen, true⟩
    | some n =>
      let post_data := req.body.take n
      if dec post_data = false then ⟨none, [], seen, true⟩
      else if truthyS req.msgId = false then ⟨some (.ok none), [], seen, false⟩
      else
        let mid := req.msgId.getD ""
        if seen.contains mid then ⟨some (.ok none), [], seen, false⟩
        else
          match req.msgTimestamp, req.msgSignature with
          | some ts, some sig =>
            if verify_signature H secret mid ts post_data sig then
              let seen' := seen ++ [mid]
              match parse post_data with
              | none => ⟨none, [], seen', true⟩
              | some payload =>
                if req.msgType == some "webhook_callback_verification" then
                  match payload.challenge with
                  | none => ⟨none, [], seen', true⟩
                  | some ch =>
                    ⟨some (.okBody (strBytes ch).length ch), [], seen', false⟩
                else if req.msgType == some "notification" then
                  match payload.event with
                  | none => ⟨none, [], seen', true⟩
                  | some ev =>
                    match ev.user_name with
                    | none => ⟨none, [], seen', true⟩
                    | some user =>
                      if req.subType == some "channel.follow" then
                        ⟨some (.ok none),
                          [s!"Thank you for following {user}!"], seen', false⟩
                      else if req.subType == some "channel.subscribe" then
                        match ev.tier with
                        | none => ⟨none, [], seen', true⟩
                        | some t =>
                          ⟨some (.ok none),
                            [s!"{user} subscribed at tier {t / 1000}! Thank you for the support!"],
                            seen', false⟩
                      else if req.subType == some "channel.cheer" then
                        match ev.bits, ev.is_anonymous with
                        | some bits, some anon =>
                          if anon = false then
                            ⟨some (.ok none),
                              [s!"{user} cheered {bits} bits! Thank you for the support!"],
                              seen', false⟩
                          else
                            ⟨some (.ok none),
                              [s!"Anonymous cheered {bits} bits! Thank you for the support!"],
                              seen', false⟩
                        | _, _ => ⟨none, [], seen', true⟩
                      else ⟨none, [], seen', false⟩
                else ⟨none, [], seen', false⟩
            else ⟨some .forbidden, [], seen, false⟩
          | _, _ => ⟨none, [], seen, true⟩

/-! ### Helper lemmas -/

theorem toList_append (p x : String) : (p ++ x).toList = p.toList ++ x.toList := by
  cases p; cases x; rfl

theorem listIsPre_self_append (l t : List Char) : listIsPre l (l ++ t) = true := by
  induction l with
  | nil => rfl
  | cons a as ih => simp [listIsPre, ih]

theorem dropPfx_append (p x : String) : dropPfx (p ++ x) p = x := by
  unfold dropPfx
  rw [toList_append, listIsPre_self_append]
  simp only [if_true]
  rw [List.drop_left]
  cases x; rfl

theorem char_toNat_injective : Function.Injective Char.toNat := by
  intro a b h
  rw [← Char.ofNat_toNat a, ← Char.ofNat_toNat b, h]

theorem strBytes_inj {s t : String} (h : strBytes s = strBytes t) : s = t := by
  unfold strBytes at h
  have h2 : s.toList = t.toList := List.map_injective_iff.mpr char_toNat_injective h
  cases s; cases t; exact congrArg String.mk h2

/-! ### C1: signature verification -/

/-- C1.  For every secret, message id, timestamp and raw body,
`verify_signature` returns true when the presented signature — here
`'sha256=' ++` the hex digest, so that stripping the prefix recovers it —
equals the digest of the concatenation id ++ timestamp ++ body keyed by the
secret; and it returns false on any input `(id', ts', body')` that differs
from the signed values while keeping each component's byte length (a
single-byte flip), provided the digest function does not collide on the two
resulting messages (`hcoll`, the collision-freeness of HMAC-SHA256 that the
claim presupposes; the digest is a parameter of the embedding). -/
theorem spec_c1_verify_signature (H : List Nat → List Nat → String)
    (secret es_id es_ts : String) (body : List Nat)
    (id' ts' : String) (body' : List Nat)
    (hlid : (strBytes id').length = (strBytes es_id).length)
    (hlts : (strBytes ts').length = (strBytes es_ts).length)
    (hne : ¬ (id' = es_id ∧ ts' = es_ts ∧ body' = body))
    (hcoll : H (strBytes secret) (strBytes id' ++ (strBytes ts' ++ body')) =
        H (strBytes secret) (strBytes es_id ++ (strBytes es_ts ++ body)) →
        strBytes id' ++ (strBytes ts' ++ body') =
        strBytes es_id ++ (strBytes es_ts ++ body)) :
    verify_signature H secret es_id es_ts body
      ("sha256=" ++ H (strBytes secret)
        (strBytes es_id ++ strBytes es_ts ++ body)) = true ∧
    verify_signature H secret id' ts' body'
      ("sha256=" ++ H (strBytes secret)
        (strBytes es_id ++ strBytes es_ts ++ body)) = false := by
  constructor
  · unfold verify_signature
    rw [dropPfx_append]
    simp
  · unfold verify_signature
    rw [dropPfx_append]
    rw [beq_eq_false_iff_ne]
    intro hEq
    rw [List.append_assoc, List.append_assoc] at hEq
    have hMsg := hcoll hEq
    have h1 := List.append_inj hMsg hlid
    have h2 := List.append_inj h1.2 hlts
    exact hne ⟨strBytes_inj h1.1, strBytes_inj h2.1, h2.2⟩

/-- Witness for C1 at a concrete digest function and concrete inputs. -/
theorem spec_c1_verify_signature_witness :
    verify_signature (fun _ m => toString m) "sec" "id" "ts" [0]
      ("sha256=" ++ (fun (_ m : List Nat) => toString m) (strBytes "sec")
        (strBytes "id" ++ strBytes "ts" ++ [0])) = true ∧
    verify_signature (fun _ m => toString m) "sec" "xd" "ts" [0]
      ("sha256=" ++ (fun (_ m : List Nat) => toString m) (strBytes "sec")
        (strBytes "id" ++ strBytes "ts" ++ [0])) = false :=
  spec_c1_verify_signature (fun _ m => toString m) "sec" "id" "ts" [0]
    "xd" "ts" [0] (by decide) (by decide) (by decide)
    (fun h => absurd h (by decide))

/-! ### C2: privilege -/

theorem builtins_nonmod (store : List Cmd) (cds : CDMap)
    (message cmd name mods : String) (h : pyInStr name mods = false) :
    builtins store cds message cmd name mods = some ⟨.ignored, store, cds⟩ := by
  simp [builtins, h]

/-- C2 (amended).  A sender is treated as elevated iff the sender's name is
a Python substring of the `MODS` configuration string (the source tests
`user in MODS` where `MODS` is a string, not membership in a set of names).
For every stored command, a substring-elevated sender receives the template
unconditionally, with the cooldown dictionary untouched and `mod` flag
ignored; a sender whose name is not a substring of `MODS` never reaches any
built-in administrative action: dispatch only yields the ignored outcome or
a stored-command reply, and leaves the command table unchanged. -/
theorem spec_c2_privilege (cooldown : Nat) (store : List Cmd) (cds : CDMap)
    (cmd user mods msg0 name : String) (now : Nat) (row : Cmd) :
    (findCmd store cmd = some row → pyInStr user mods = true →
      command_handler cooldown store cds cmd user mods now =
        (some row.content, cds)) ∧
    (pyInStr name mods = false →
      ∃ r, command cooldown store cds msg0 name mods now = some r ∧
        r.store = store ∧
        (r.action = .ignored ∨ ∃ s, r.action = .storedReply s)) := by
  constructor
  · intro hf hm
    simp [command_handler, hf, hm]
  · intro hm
    rcases hr : command_handler cooldown store cds (dispatchToken msg0)
        name mods now with ⟨os, cds'⟩
    cases os with
    | none =>
      refine ⟨⟨.ignored, store, cds'⟩, ?_, rfl, Or.inl rfl⟩
      simp [command, hr, builtins_nonmod _ _ _ _ _ _ hm]
    | some s =>
      by_cases hs : s = ""
      · refine ⟨⟨.ignored, store, cds'⟩, ?_, rfl, Or.inl rfl⟩
        simp [command, hr, hs, builtins_nonmod _ _ _ _ _ _ hm]
      · refine ⟨⟨.storedReply s, store, cds'⟩, ?_, rfl, Or.inr ⟨s, rfl⟩⟩
        simp [command, hr, hs]

/-- Witness for C2 at concrete inputs: `"al"` is a substring of `"alice"`
and receives a mod-only template; `"bob"` is not and reaches no built-in. -/
theorem spec_c2_privilege_witness :
    command_handler 5 [⟨"greet", "hi", 1⟩] [] "greet" "al" "alice" 0 =
      (some "hi", []) ∧
    ∃ r, command 5 [⟨"greet", "hi", 0⟩] [] "!greet" "bob" "alice" 0 = some r ∧
      r.store = [⟨"greet", "hi", 0⟩] ∧
      (r.action = .ignored ∨ ∃ s, r.action = .storedReply s) :=
  ⟨(spec_c2_privilege 5 [⟨"greet", "hi", 1⟩] [] "greet" "al" "alice"
      "!greet" "bob" 0 ⟨"greet", "hi", 1⟩).1 (by decide) (by decide),
   (spec_c2_privilege 5 [⟨"greet", "hi", 0⟩] [] "greet" "al" "alice"
      "!greet" "bob" 0 ⟨"greet", "hi", 0⟩).2 (by decide)⟩

/-- Counterexample to C2 as stated: with `MODS = "alice"` the static
privileged-user set is `{"alice"}`, yet the sender `"lic"` — not a member —
is treated as elevated: it receives a mod-only stored template and triggers
the built-in `delcom` administrative action. -/
theorem spec_c2_cex :
    pyInStr "lic" "alice" = true ∧ "lic" ≠ "alice" ∧
    command_handler 5 [⟨"secretcmd", "tpl", 1⟩] [] "secretcmd" "lic" "alice" 0 =
      (some "tpl", []) ∧
    command 5 [⟨"x", "y", 0⟩] [] "!delcom x" "lic" "alice" 0 =
      some ⟨.delcomDone, [], []⟩ :=
  ⟨by decide, by decide, by decide, by decide⟩

/-! ### C3: cooldown semantics -/

theorem mapSet_lookup_self (cds : CDMap) (k : String) (v : CooldownHandler)
    (h : mapLookup cds k = some v) : mapSet cds k v = cds := by
  induction cds with
  | nil => simp [mapLookup] at h
  | cons p t ih =>
    obtain ⟨pk, pv⟩ := p
    by_cases hk : pk = k
    · subst hk
      simp [mapLookup] at h
      simp [mapSet, h]
    · simp [mapLookup, hk] at h
      simp [mapSet, hk, ih h]

/-- C3.  The cooldown check: on the first call for a command it creates
state with `last_used = now` and returns true; on subsequent calls it
returns true and resets `last_used = now` exactly when
`now > cooldown + last_used`, and otherwise returns false without mutating
any state; hence the call sequence at t = 0, t = N - 1, t = N + 1 yields
true, false, true. -/
theorem spec_c3_cooldown (N now : Nat) (cmd : String) (cds : CDMap) :
    (mapLookup cds cmd = none →
      tryFire N cds cmd now = (true, mapSet cds cmd ⟨cmd, N, now⟩)) ∧
    (∀ st, mapLookup cds cmd = some st →
      (now > st.cooldown + st.last_used →
        tryFire N cds cmd now =
          (true, mapSet cds cmd ⟨st.command, st.cooldown, now⟩)) ∧
      (¬ now > st.cooldown + st.last_used →
        tryFire N cds cmd now = (false, cds))) ∧
    (tryFire N [] cmd 0 = (true, [(cmd, ⟨cmd, N, 0⟩)]) ∧
     tryFire N [(cmd, ⟨cmd, N, 0⟩)] cmd (N - 1) =
       (false, [(cmd, ⟨cmd, N, 0⟩)]) ∧
     (tryFire N [(cmd, ⟨cmd, N, 0⟩)] cmd (N + 1)).1 = true) := by
  refine ⟨?_, ?_, ?_, ?_, ?_⟩
  · intro h
    simp [tryFire, h]
  · intro st h
    constructor
    · intro hgt
      simp [tryFire, h, CooldownHandler.is_useable, hgt]
    · intro hle
      simp [tryFire, h, CooldownHandler.is_useable, hle,
        mapSet_lookup_self cds cmd st h]
  · simp [tryFire, mapLookup, mapSet]
  · have hc : ¬ (N < N - 1) := by omega
    simp [tryFire, mapLookup, CooldownHandler.is_useable, hc, mapSet]
  · have hc : N + 1 > N + 0 := by omega
    simp [tryFire, mapLookup, CooldownHandler.is_useable, hc]

/-- Witness for C3 at a concrete command and times 0, 7, 3 with N = 5. -/
theorem spec_c3_cooldown_witness :
    tryFire 5 [] "x" 0 = (true, [("x", ⟨"x", 5, 0⟩)]) ∧
    tryFire 5 [("x", ⟨"x", 5, 0⟩)] "x" 7 = (true, [("x", ⟨"x", 5, 7⟩)]) ∧
    tryFire 5 [("x", ⟨"x", 5, 0⟩)] "x" 3 = (false, [("x", ⟨"x", 5, 0⟩)]) :=
  ⟨(spec_c3_cooldown 5 0 "x" []).1 (by decide),
   by
     have h := ((spec_c3_cooldown 5 7 "x" [("x", ⟨"x", 5, 0⟩)]).2.1
       ⟨"x", 5, 0⟩ (by decide)).1 (by decide)
     simpa [mapSet] using h,
   ((spec_c3_cooldown 5 3 "x" [("x", ⟨"x", 5, 0⟩)]).2.1
       ⟨"x", 5, 0⟩ (by decide)).2 (by decide)⟩

/-! ### Concrete fixtures for the webhook theorems -/

/-- A concrete digest function for witnesses: constant `"m"`. -/
def Hconst : List Nat → List Nat → String := fun _ _ => "m"

/-- A concrete parser that always fails (unparseable JSON body). -/
def parseFail : List Nat → Option Payload := fun _ => none

/-- A concrete parser producing a notification payload with a user name. -/
def parseUser : List Nat → Option Payload :=
  fun _ => some ⟨none, some ⟨some "u", none, none, none⟩⟩

/-- A concrete decode test that always succeeds. -/
def decOk : List Nat → Bool := fun _ => true

/-- A request carrying a valid signature (under `Hconst`) whose body fails
to parse. -/
def reqParseBad : Req :=
  ⟨some "0", some "id1", some "t", some "sha256=m", some "notification",
    some "channel.follow", []⟩

/-- A verified notification request of unrecognized subscription type. -/
def reqUnrec : Req :=
  ⟨some "0", some "id1", some "t", some "sha256=m", some "notification",
    some "channel.update", []⟩

/-! ### C4: dedup marking -/

/-- C4 (amended).  The dedup list gains the id immediately after successful
signature verification and before the payload is parsed: when verification
succeeds but `json.loads` fails, the id is already recorded while the
exception escapes the handler, so a retry of the same notification is
answered as a duplicate (HTTP 200, no reprocessing, no state change)
rather than reprocessed. -/
theorem spec_c4_markSeen (H : List Nat → List Nat → String)
    (parse : List Nat → Option Payload) (dec : List Nat → Bool)
    (secret : String) (seen : List String) (cl mid ts sig : String)
    (mt stype : Option String) (body : List Nat) (n : Nat) :
    (pyInt cl = some n → dec (body.take n) = true → (mid == "") = false →
      seen.contains mid = false →
      verify_signature H secret mid ts (body.take n) sig = true →
      parse (body.take n) = none →
      do_POST H parse dec secret seen
          ⟨some cl, some mid, some ts, some sig, mt, stype, body⟩ =
        ⟨none, [], seen ++ [mid], true⟩) ∧
    (pyInt cl = some n → dec (body.take n) = true → (mid == "") = false →
      seen.contains mid = true →
      do_POST H parse dec secret seen
          ⟨some cl, some mid, some ts, some sig, mt, stype, body⟩ =
        ⟨some (.ok none), [], seen, false⟩) := by
  constructor
  · intro h1 h2 h3 h4 h5 h6
    have h4' : mid ∉ seen := by simpa using h4
    simp [do_POST, truthyS, h1, h2, h3, h4', h5, h6]
  · intro h1 h2 h3 h4
    have h4' : mid ∈ seen := by simpa using h4
    simp [do_POST, truthyS, h1, h2, h3, h4']

/-- Witness for C4 at the concrete fixtures. -/
theorem spec_c4_markSeen_witness :
    do_POST Hconst parseFail decOk "sec" [] reqParseBad =
      ⟨none, [], ["id1"], true⟩ ∧
    do_POST Hconst parseFail decOk "sec" ["id1"] reqParseBad =
      ⟨some (.ok none), [], ["id1"], false⟩ :=
  ⟨(spec_c4_markSeen Hconst parseFail decOk "sec" [] "0" "id1" "t"
      "sha256=m" (some "notification") (some "channel.follow") [] 0).1
      (by decide) (by decide) (by decide) (by decide) (by decide) (by decide),
   (spec_c4_markSeen Hconst parseFail decOk "sec" ["id1"] "0" "id1" "t"
      "sha256=m" (some "notification") (some "channel.follow") [] 0).2
      (by decide) (by decide) (by decide) (by decide)⟩

/-- Counterexample to C4 as stated: verification succeeds, parsing fails,
and the id is nevertheless already in the dedup list while the exception
escapes; the retry is answered as a duplicate instead of being
reprocessed. -/
theorem spec_c4_cex :
    (do_POST Hconst parseFail decOk "sec" [] reqParseBad).raised = true ∧
    (do_POST Hconst parseFail decOk "sec" [] reqParseBad).seen = ["id1"] ∧
    do_POST Hconst parseFail decOk "sec" ["id1"] reqParseBad =
      ⟨some (.ok none), [], ["id1"], false⟩ :=
  ⟨by decide, by decide, by decide⟩

/-! ### C7: malformed payloads -/

/-- C7 (amended).  Only a POST whose notification-id header is absent or
empty (with a parseable `Content-Length` and decodable body) is answered
with the default success response, no chat action and no exception.  Other
malformed inputs are not non-fatal: a missing `Content-Length` header, a
missing timestamp header on a fresh non-empty id, or a validly signed but
unparseable JSON body each let an exception escape the handler with no
response sent. -/
theorem spec_c7_malformed (H : List Nat → List Nat → String)
    (parse : List Nat → Option Payload) (dec : List Nat → Bool)
    (secret : String) (seen : List String) (cl mid ts sig : String)
    (tsO sigO mt stype : Option String) (body : List Nat) (n : Nat) :
    (pyInt cl = some n → dec (body.take n) = true →
      do_POST H parse dec secret seen
          ⟨some cl, none, tsO, sigO, mt, stype, body⟩ =
        ⟨some (.ok none), [], seen, false⟩ ∧
      do_POST H parse dec secret seen
          ⟨some cl, some "", tsO, sigO, mt, stype, body⟩ =
        ⟨some (.ok none), [], seen, false⟩) ∧
    (do_POST H parse dec secret seen
        ⟨none, some mid, tsO, sigO, mt, stype, body⟩ =
      ⟨none, [], seen, true⟩) ∧
    (pyInt cl = some n → dec (body.take n) = true → (mid == "") = false →
      seen.contains mid = false →
      do_POST H parse dec secret seen
          ⟨some cl, some mid, none, sigO, mt, stype, body⟩ =
        ⟨none, [], seen, true⟩) ∧
    (pyInt cl = some n → dec (body.take n) = true → (mid == "") = false →
      seen.contains mid = false →
      verify_signature H secret mid ts (body.take n) sig = true →
      parse (body.take n) = none →
      do_POST H parse dec secret seen
          ⟨some cl, some mid, some ts, some sig, mt, stype, body⟩ =
        ⟨none, [], seen ++ [mid], true⟩) := by
  refine ⟨?_, ?_, ?_, ?_⟩
  · intro h1 h2
    constructor
    · simp [do_POST, truthyS, h1, h2]
    · simp [do_POST, truthyS, h1, h2]
  · simp [do_POST]
  · intro h1 h2 h3 h4
    have h4' : mid ∉ seen := by simpa using h4
    cases sigO <;> simp [do_POST, truthyS, h1, h2, h3, h4']
  · intro h1 h2 h3 h4 h5 h6
    have h4' : mid ∉ seen := by simpa using h4
    simp [do_POST, truthyS, h1, h2, h3, h4', h5, h6]

/-- Witness for C7 at the concrete fixtures. -/
theorem spec_c7_malformed_witness :
    (do_POST Hconst parseUser decOk "sec" []
        ⟨some "0", none, some "t", some "s", none, none, []⟩ =
      ⟨some (.ok none), [], [], false⟩ ∧
     do_POST Hconst parseUser decOk "sec" []
        ⟨some "0", some "", some "t", some "s", none, none, []⟩ =
      ⟨some (.ok none), [], [], false⟩) ∧
    do_POST Hconst parseUser decOk "sec" []
        ⟨some "0", some "id2", none, some "s", none, none, []⟩ =
      ⟨none, [], [], true⟩ :=
  ⟨(spec_c7_malformed Hconst parseUser decOk "sec" [] "0" "id2" "t" "s"
      (some "t") (some "s") none none [] 0).1 (by decide) (by decide),
   (spec_c7_malformed Hconst parseUser decOk "sec" [] "0" "id2" "t" "s"
      (some "t") (some "s") none none [] 0).2.2.1 (by decide) (by decide)
      (by decide) (by decide)⟩

/-- Counterexample to C7 as stated: a POST with the id header present but
the timestamp header missing (a "missing notification header") does not
respond with success — the handler raises (`None.encode()`) and sends no
response at all. -/
theorem spec_c7_cex :
    do_POST Hconst parseUser decOk "sec" []
        ⟨some "0", some "id2", none, some "s", none, none, []⟩ =
      ⟨none, [], [], true⟩ ∧
    (do_POST Hconst parseUser decOk "sec" []
        ⟨some "0", some "id2", none, some "s", none, none, []⟩).raised = true :=
  ⟨by decide, by decide⟩

/-! ### C8: unrecognized subscription types -/

/-- C8 (amended).  A verified, fresh notification whose subscription type
is none of follow, subscribe or cheer performs no chat action and does not
raise, but it also sends no HTTP response at all: the `if`/`elif` chain has
no final else on this path, so the handler returns without calling
`send_response` (the id is still marked seen). -/
theorem spec_c8_unrecognized (H : List Nat → List Nat → String)
    (parse : List Nat → Option Payload) (dec : List Nat → Bool)
    (secret : String) (seen : List String) (cl mid ts sig : String)
    (stype : Option String) (body : List Nat) (n : Nat)
    (pl : Payload) (ev : EventObj) (u : String) :
    pyInt cl = some n → dec (body.take n) = true → (mid == "") = false →
    seen.contains mid = false →
    verify_signature H secret mid ts (body.take n) sig = true →
    parse (body.take n) = some pl → pl.event = some ev →
    ev.user_name = some u →
    stype ≠ some "channel.follow" → stype ≠ some "channel.subscribe" →
    stype ≠ some "channel.cheer" →
    do_POST H parse dec secret seen
        ⟨some cl, some mid, some ts, some sig, some "notification", stype,
          body⟩ =
      ⟨none, [], seen ++ [mid], false⟩ := by
  intro h1 h2 h3 h4 h5 h6 h7 h8 h9 h10 h11
  have h4' : mid ∉ seen := by simpa using h4
  simp [do_POST, truthyS, h1, h2, h3, h4', h5, h6, h7, h8, h9, h10, h11]

/-- Witness for C8 at the concrete fixtures. -/
theorem spec_c8_unrecognized_witness :
    do_POST Hconst parseUser decOk "sec" [] reqUnrec =
      ⟨none, [], ["id1"], false⟩ :=
  spec_c8_unrecognized Hconst parseUser decOk "sec" [] "0" "id1" "t"
    "sha256=m" (some "channel.update") [] 0
    ⟨none, some ⟨some "u", none, none, none⟩⟩ ⟨some "u", none, none, none⟩
    "u" (by decide) (by decide) (by decide) (by decide) (by decide)
    (by decide) (by decide) (by decide) (by decide) (by decide) (by decide)

/-- Counterexample to C8 as stated: for a verified notification of
unrecognized subscription type the handler sends no HTTP response at all,
rather than responding with success. -/
theorem spec_c8_cex :
    do_POST Hconst parseUser decOk "sec" [] reqUnrec =
      ⟨none, [], ["id1"], false⟩ ∧
    (do_POST Hconst parseUser decOk "sec" [] reqUnrec).resp = none :=
  ⟨by decide, by decide⟩

/-! ### C5: case handling of command names -/

/-- C5 (amended).  Stored-command lookup is a case-sensitive exact match on
the name (the sqlite `WHERE command = :command` under the default BINARY
collation), and only `addcom` lower-cases the name it stores: the dispatch
token and the `delcom` argument are used raw, so names differing only in
letter case refer to different stored commands — a stored (lower-case) name
is found only when invoked in exactly that spelling. -/
theorem spec_c5_casefold :
    (∀ store n c, findCmd store n = some c → c.name = n) ∧
    add_command "addcom Greet hi" [] = some ([⟨"greet", "hi", 0⟩], true) ∧
    (command 5 [⟨"greet", "hi", 0⟩] [] "!greet" "al" "al" 0).map
      DispatchResult.action = some (.storedReply "hi") ∧
    (command 5 [⟨"greet", "hi", 0⟩] [] "!Greet" "al" "al" 0).map
      DispatchResult.action = some .ignored ∧
    delete_command "delcom Greet" [⟨"greet", "hi", 0⟩] =
      some [⟨"greet", "hi", 0⟩] ∧
    delete_command "delcom greet" [⟨"greet", "hi", 0⟩] = some [] := by
  refine ⟨?_, by decide, by decide, by decide, by decide, by decide⟩
  intro store n c h
  induction store with
  | nil => cases h
  | cons a t ih =>
    by_cases ha : a.name = n
    · simp [findCmd, ha] at h
      rw [← h]
      exact ha
    · simp [findCmd, ha] at h
      exact ih h

/-- Witness for C5's exact-match lookup at a concrete store. -/
theorem spec_c5_casefold_witness :
    findCmd [⟨"greet", "hi", 0⟩] "greet" = some ⟨"greet", "hi", 0⟩ ∧
    (⟨"greet", "hi", 0⟩ : Cmd).name = "greet" :=
  ⟨by decide,
   spec_c5_casefold.1 [⟨"greet", "hi", 0⟩] "greet" ⟨"greet", "hi", 0⟩
     (by decide)⟩

/-- Counterexample to C5 as stated: `addcom Greet` stores the name
`"greet"`, but the dispatch token of `"!Greet"` is the unfolded `"Greet"`
and the invocation is ignored, and `delcom Greet` deletes nothing — names
differing only in case do not refer to the same stored command. -/
theorem spec_c5_cex :
    add_command "addcom Greet hi" [] = some ([⟨"greet", "hi", 0⟩], true) ∧
    dispatchToken "!Greet" = "Greet" ∧
    (command 5 [⟨"greet", "hi", 0⟩] [] "!Greet" "al" "al" 0).map
      DispatchResult.action = some .ignored ∧
    delete_command "delcom Greet" [⟨"greet", "hi", 0⟩] =
      some [⟨"greet", "hi", 0⟩] :=
  ⟨by decide, by decide, by decide, by decide⟩

/-! ### C6: soft-failing insert -/

theorem findCmd_append_of_none (store : List Cmd) (c : Cmd) (n : String)
    (h : findCmd store n = none) :
    findCmd (store ++ [c]) n = if c.name = n then some c else none := by
  induction store with
  | nil => simp [findCmd]
  | cons a t ih =>
    by_cases ha : a.name = n
    · simp [findCmd, ha] at h
    · simp [findCmd, ha] at h ⊢
      exact ih h

/-- C6.  Inserting a command whose (parsed) name already exists in the
store returns false, leaves the store — including the previously stored
template and elevation flag — unchanged, and does not throw; consequently a
second insert of the same message after a successful first insert always
reports failure and changes nothing. -/
theorem spec_c6_insert (msg : String) (store st1 : List Cmd)
    (n c : String) (m : Nat) (x : Cmd) :
    (addcomParse msg = some (n, c, m) → findCmd store n = some x →
      add_command msg store = some (store, false)) ∧
    (add_command msg store = some (st1, true) →
      add_command msg st1 = some (st1, false)) := by
  constructor
  · intro hp hf
    simp [add_command, hp, hf]
  · intro h
    cases hp : addcomParse msg with
    | none => simp [add_command, hp] at h
    | some t =>
      obtain ⟨n', c', m'⟩ := t
      simp only [add_command, hp] at h ⊢
      cases hf : findCmd store n' with
      | some y => rw [hf] at h; simp at h
      | none =>
        rw [hf] at h
        simp only [Option.some.injEq, Prod.mk.injEq] at h
        have hst : st1 = store ++ [⟨n', c', m'⟩] := h.1.symm
        have hfind : findCmd st1 n' = some ⟨n', c', m'⟩ := by
          rw [hst, findCmd_append_of_none store _ _ hf]
          simp
        rw [hfind]

/-- Witness for C6 at concrete messages and stores. -/
theorem spec_c6_insert_witness :
    add_command "addcom greet hi" [⟨"greet", "old", 1⟩] =
      some ([⟨"greet", "old", 1⟩], false) ∧
    add_command "addcom greet hi" [⟨"greet", "hi", 0⟩] =
      some ([⟨"greet", "hi", 0⟩], false) :=
  ⟨(spec_c6_insert "addcom greet hi" [⟨"greet", "old", 1⟩] []
      "greet" "hi" 0 ⟨"greet", "old", 1⟩).1 (by decide) (by decide),
   (spec_c6_insert "addcom greet hi" [] [⟨"greet", "hi", 0⟩]
      "greet" "hi" 0 ⟨"greet", "old", 1⟩).2 (by decide)⟩

/-! ### C9: empty-template stored commands -/

theorem findCmd_dropNamed (store : List Cmd) (n : String) :
    findCmd (dropNamed store n) n = none := by
  induction store with
  | nil => rfl
  | cons a t ih =>
    by_cases ha : a.name = n
    · simpa [dropNamed, List.filter_cons, ha] using ih
    · simpa [dropNamed, List.filter_cons, ha, findCmd] using ih

theorem command_handler_content (cooldown : Nat) (store : List Cmd)
    (cds : CDMap) (cmd user mods : String) (now : Nat) (row : Cmd)
    (hf : findCmd store cmd = some row) :
    (command_handler cooldown store cds cmd user mods now).1 =
      some row.content ∨
    (command_handler cooldown store cds cmd user mods now).1 = none := by
  by_cases h1 : pyInStr user mods = true
  · simp [command_handler, hf, h1]
  · by_cases h2 : row.mod = 0
    · by_cases h3 : (tryFire cooldown cds cmd now).1 = true
      · simp [command_handler, hf, h1, h2, h3]
      · simp [command_handler, hf, h1, h2, h3]
    · simp [command_handler, hf, h1, h2]

theorem builtins_action_indep (store store' : List Cmd) (cds cds' : CDMap)
    (message cmd name mods : String)
    (h1 : cmd ≠ "addcom") (h2 : cmd ≠ "delcom") :
    (builtins store cds message cmd name mods).map DispatchResult.action =
    (builtins store' cds' message cmd name mods).map DispatchResult.action := by
  unfold builtins
  split_ifs with hso haddcom hdelcom hesf hess hnuke hdisc hauth
  · cases (splitSp message).get? 1 <;> rfl
  · exact absurd haddcom.1 h1
  · exact absurd hdelcom.1 h2
  · rfl
  · rfl
  · rfl
  · rfl
  · rfl
  · rfl

/-- C9 (amended).  Invoking a stored command whose template is the empty
string (creatable by an elevated `addcom` with a name and no content) sends
no chat message — the walrus test is falsy — and the dispatcher falls
through to the built-in chain, evaluated against the unchanged store; for
every dispatched name other than the store-consulting built-ins `addcom`
and `delcom`, the resulting action is exactly the one produced when the
stored command does not exist (though cooldown state may still be
touched). -/
theorem spec_c9_emptyTemplate (cooldown : Nat) (store : List Cmd)
    (cds : CDMap) (msg0 name mods : String) (now : Nat) (row : Cmd)
    (hf : findCmd store (dispatchToken msg0) = some row)
    (hc : row.content = "") :
    command cooldown store cds msg0 name mods now =
      builtins store
        (command_handler cooldown store cds (dispatchToken msg0) name mods
          now).2
        (strDrop msg0 1) (dispatchToken msg0) name mods ∧
    (dispatchToken msg0 ≠ "addcom" → dispatchToken msg0 ≠ "delcom" →
      (command cooldown store cds msg0 name mods now).map
        DispatchResult.action =
      (command cooldown (dropNamed store (dispatchToken msg0)) cds msg0 name
        mods now).map DispatchResult.action) := by
  have hfall : command cooldown store cds msg0 name mods now =
      builtins store
        (command_handler cooldown store cds (dispatchToken msg0) name mods
          now).2
        (strDrop msg0 1) (dispatchToken msg0) name mods := by
    rcases hr : command_handler cooldown store cds (dispatchToken msg0) name
        mods now with ⟨os, cds'⟩
    have hos := command_handler_content cooldown store cds
      (dispatchToken msg0) name mods now row hf
    rw [hr, hc] at hos
    rcases hos with h | h
    · simp only at h
      subst h
      simp [command, hr]
    · simp only at h
      subst h
      simp [command, hr]
  refine ⟨hfall, ?_⟩
  intro ha hd
  have hfd : findCmd (dropNamed store (dispatchToken msg0))
      (dispatchToken msg0) = none := findCmd_dropNamed store _
  have hrhs : command cooldown (dropNamed store (dispatchToken msg0)) cds
      msg0 name mods now =
      builtins (dropNamed store (dispatchToken msg0)) cds (strDrop msg0 1)
        (dispatchToken msg0) name mods := by
    simp [command, command_handler, hfd]
  rw [hfall, hrhs]
  exact builtins_action_indep _ _ _ _ _ _ _ _ ha hd

/-- Witness for C9 at a concrete empty-template command. -/
theorem spec_c9_emptyTemplate_witness :
    command 5 [⟨"greet", "", 0⟩] [] "!greet" "al" "al" 0 =
      builtins [⟨"greet", "", 0⟩]
        (command_handler 5 [⟨"greet", "", 0⟩] [] (dispatchToken "!greet")
          "al" "al" 0).2
        (strDrop "!greet" 1) (dispatchToken "!greet") "al" "al" ∧
    (command 5 [⟨"greet", "", 0⟩] [] "!greet" "al" "al" 0).map
      DispatchResult.action =
    (command 5 (dropNamed [⟨"greet", "", 0⟩] (dispatchToken "!greet")) []
      "!greet" "al" "al" 0).map DispatchResult.action :=
  ⟨(spec_c9_emptyTemplate 5 [⟨"greet", "", 0⟩] [] "!greet" "al" "al" 0
      ⟨"greet", "", 0⟩ (by decide) (by decide)).1,
   (spec_c9_emptyTemplate 5 [⟨"greet", "", 0⟩] [] "!greet" "al" "al" 0
      ⟨"greet", "", 0⟩ (by decide) (by decide)).2 (by decide) (by decide)⟩

/-- Counterexample to C9's "behaving exactly as if the stored command did
not exist": with an empty-template stored command named `addcom`, the
fall-through built-in `addcom` sees the name as occupied and fails, while
with the command truly absent it succeeds. -/
theorem spec_c9_cex :
    (command 5 [⟨"addcom", "", 0⟩] [] "!addcom addcom hi" "al" "al" 0).map
      DispatchResult.action = some .addcomFail ∧
    (command 5 [] [] "!addcom addcom hi" "al" "al" 0).map
      DispatchResult.action = some .addcomOk :=
  ⟨by decide, by decide⟩

/-! ### C10: empty chat messages crash the read loop -/

/-- C10.  For every received channel message whose extracted text is the
empty string — e.g. the line `":n!u@h PRIVMSG #c :"` — the read loop's
first-character test `message[0] == '!'` indexes an empty string and
raises `IndexError`, so the per-line dispatch is not total on empty
message texts (while a non-empty non-command text is handled normally). -/
theorem spec_c10_empty_message (cooldown : Nat) (store : List Cmd)
    (cds : CDMap) (name mods : String) (now : Nat)
    (seenUsers : List String) :
    handle_privmsg cooldown store cds "" name mods now seenUsers = none ∧
    extract_text ":n!u@h PRIVMSG #c :" = some "" ∧
    handle_privmsg 5 [] [] "ok" "n" "m" 0 [] = some (.noop, []) :=
  ⟨rfl, by decide, by decide⟩

end CB2

